import Mathlib

/-!
Shallow embedding of the RAGChat backend (src/backend/main.py,
src/backend/database.py, src/backend/models.py).

Modelling conventions:
- Embedding vectors are modelled as lists of integers (exact values standing
  in for the float coordinates; every property proved here is order-theoretic
  and does not depend on the coordinate type).
- The pgvector l2_distance ORDER BY is modelled by sorting on the squared
  Euclidean distance, which induces the same order as the Euclidean distance
  because the square root is monotone; theorems about ascending distance are
  stated through Real.sqrt of the squared distance.
- External services (the Gemini embedding call, the generation call, the
  langchain text splitter, the pdf and markdown extractors) are oracle
  parameters of type Except or plain functions, as in section 4.2 of the spec.
- The SQLAlchemy session life cycle is modelled by returning the committed
  store next to the response: a request that fails before its commit returns
  the store unchanged, matching rollback-on-close.
- Timestamps are naturals; SQL ORDER BY is modelled with a stable insertion
  sort so that ties keep insertion order.
- Python str.strip, str.lower, slicing and len are re-implemented over
  character lists (pyStrip, pyLower, pyTake, pyLen) so that the kernel can
  evaluate them; SQL MIN over text is codepoint-lexicographic (strLtB).
-/

/-- Python str.strip with no argument: remove leading and trailing whitespace. -/
def pyStrip (s : String) : String :=
  String.mk (((s.toList.dropWhile Char.isWhitespace).reverse.dropWhile
    Char.isWhitespace).reverse)

/-- Python str.lower, restricted to the ASCII lowering done by Char.toLower. -/
def pyLower (s : String) : String :=
  String.mk (s.toList.map Char.toLower)

/-- Python s[:n] on a string: the first n characters. -/
def pyTake (s : String) (n : Nat) : String :=
  String.mk (s.toList.take n)

/-- Python len on a string: the number of characters. -/
def pyLen (s : String) : Nat :=
  s.toList.length

/-- Codepoint-lexicographic strict order on character lists, the order under
which SQL MIN over a text column is modelled. -/
def charListLt : List Char → List Char → Bool
  | [], [] => false
  | [], _ :: _ => true
  | _ :: _, [] => false
  | a :: as, b :: bs => if a < b then true else if a = b then charListLt as bs else false

/-- Codepoint-lexicographic strict order on strings. -/
def strLtB (a b : String) : Bool :=
  charListLt a.toList b.toList

/-- Configuration constant TOP_K_CHUNKS of main.py line 29. -/
def TOP_K_CHUNKS : Nat := 5

/-- Configuration constant EMBEDDING_DIMENSION of main.py line 26. -/
def EMBEDDING_DIMENSION : Nat := 768

/-- A row of the document_chunks table (database.py lines 15-22). -/
structure DocumentChunk where
  id : Nat
  filename : String
  content : String
  embedding : List Int
deriving DecidableEq

/-- A row of the chat_history table (database.py lines 25-33). -/
structure ChatHistory where
  id : Nat
  conversation_id : String
  role : String
  content : String
  created_at : Nat
deriving DecidableEq

/-- The persistent state: both tables plus the identity counters the
database assigns to new rows. -/
structure DB where
  chunks : List DocumentChunk
  history : List ChatHistory
  nextChunkId : Nat
  nextId : Nat
deriving DecidableEq

/-- The request body of POST /chat (models.py lines 5-7); conversation_id is
Optional with pydantic treating a missing field like an empty string. -/
structure ChatRequest where
  query : String
  conversation_id : Option String
deriving DecidableEq

/-- An HTTPException: status code and detail text. -/
structure HTTPError where
  status : Nat
  detail : String
deriving DecidableEq

/-- The success body of POST /chat (main.py line 169). -/
structure ChatResponse where
  answer : String
  conversation_id : String
deriving DecidableEq

/-- The success body of POST /upload (main.py lines 92-96). -/
structure UploadResponse where
  status : String
  filename : String
  chunks_created : Nat
deriving DecidableEq

/-- One google.genai Content message with a single text part
(main.py lines 144-149). -/
structure GContent where
  role : String
  text : String
deriving DecidableEq

/-- Squared Euclidean distance between two coordinate lists; the pgvector
l2_distance orders chunks exactly as this quantity does. -/
def l2DistSq (a b : List Int) : Int :=
  ((a.zip b).map (fun p => (p.1 - p.2) ^ 2)).sum

/-- The ORDER BY l2_distance LIMIT k retrieval of main.py lines 137-139:
sort the stored chunks by ascending distance to the query embedding
(stable, so ties keep insertion order) and keep the first k. -/
def nearest (chunks : List DocumentChunk) (q : List Int) (k : Nat) : List DocumentChunk :=
  (List.insertionSort
    (fun a b => l2DistSq a.embedding q ≤ l2DistSq b.embedding q) chunks).take k

/-- Context assembly of main.py line 141: join the retrieved chunk contents
with the visible separator, in retrieval order. -/
def assembleContext (chunks : List DocumentChunk) : String :=
  String.intercalate "\n---\n" (chunks.map (fun c => c.content))

/-- Conversation id resolution of main.py lines 121-123: strip a truthy
client value; if the outcome is empty, use the freshly generated uuid. -/
def resolvedConversationId (raw : Option String) (freshId : String) : String :=
  let s := match raw with
    | none => ""
    | some v => if v = "" then "" else pyStrip v
  if s = "" then freshId else s

/-- History retrieval of main.py lines 126-128: rows of the conversation in
ascending created_at order, ties in insertion order. -/
def conversationHistory (db : DB) (cid : String) : List ChatHistory :=
  List.insertionSort (fun a b => a.created_at ≤ b.created_at)
    (db.history.filter (fun t => t.conversation_id == cid))

/-- The context-augmented prompt literal of main.py line 148. -/
def buildPrompt (context query : String) : String :=
  "Context:\n" ++ context ++ "\n\nQuestion: " ++ query

/-- The model input of main.py lines 144-149: the prior history replayed as
turns, then one new user turn holding the prompt. -/
def buildContents (past : List ChatHistory) (context query : String) : List GContent :=
  past.map (fun m => GContent.mk m.role m.content) ++
    [GContent.mk "user" (buildPrompt context query)]

/-- POST /chat (main.py lines 112-169). The embedding and generation calls
are oracle parameters; freshId is the uuid the server would mint and now the
timestamp the database would assign. Returns the response together with the
committed store. -/
def chat (embed : String → Except String (List Int))
    (generate : List GContent → Except String String)
    (freshId : String) (now : Nat)
    (req : ChatRequest) (db : DB) :
    Except HTTPError ChatResponse × DB :=
  if db.chunks.length = 0 then
    (Except.error (HTTPError.mk 400 "No documents found. Please upload a document first."), db)
  else
    let conversation_id := resolvedConversationId req.conversation_id freshId
    let past_messages := conversationHistory db conversation_id
    match embed req.query with
    | Except.error e => (Except.error (HTTPError.mk 500 e), db)
    | Except.ok query_embedding =>
      let relevant_chunks := nearest db.chunks query_embedding TOP_K_CHUNKS
      let context := assembleContext relevant_chunks
      let contents := buildContents past_messages context req.query
      match generate contents with
      | Except.error e => (Except.error (HTTPError.mk 500 e), db)
      | Except.ok response_text =>
        (Except.ok (ChatResponse.mk response_text conversation_id),
         { db with
            history := db.history ++
              [ChatHistory.mk db.nextId conversation_id "user" req.query now,
               ChatHistory.mk (db.nextId + 1) conversation_id "model" response_text now],
            nextId := db.nextId + 2 })

/-- The supported upload extensions of main.py line 231. -/
def SUPPORTED_EXTENSIONS : List String := [".pdf", ".txt", ".md"]

/-- The extension part of os.path.splitext for a bare filename: the suffix
from the last dot, where dots that merely lead the name do not count. -/
def splitextExt (filename : String) : String :=
  let cs := filename.toList
  let lead := (cs.takeWhile (fun c => c = '.')).length
  let rest := cs.drop lead
  if rest.contains '.' then
    String.mk ('.' :: ((rest.reverse.takeWhile (fun c => c ≠ '.')).reverse))
  else ""

/-- extract_text_from_file of main.py lines 234-258. The format-specific
extraction bodies (pypdf, markdown2, utf-8 decode) are an oracle taking the
lowered extension and the raw bytes; the function itself keeps the gate: an
extension outside the supported set raises a 422 before any extraction. -/
def extract_text_from_file (extractor : String → String → String)
    (filename : String) (file_bytes : String) : Except HTTPError String :=
  let ext := pyLower (splitextExt filename)
  if SUPPORTED_EXTENSIONS.contains ext then
    Except.ok (extractor ext file_bytes)
  else
    Except.error (HTTPError.mk 422 "Unsupported file type. Supported: .pdf, .txt, .md")

/-- POST /upload (main.py lines 62-102). The splitter and the per-chunk
embedding call are oracles; a failure anywhere before the commit returns the
store unchanged, as the rollback does. -/
def upload_document (extractor : String → String → String)
    (embed : String → Except String (List Int))
    (splitText : String → List String)
    (filename : String) (file_bytes : String) (db : DB) :
    Except HTTPError UploadResponse × DB :=
  match extract_text_from_file extractor filename file_bytes with
  | Except.error e => (Except.error e, db)
  | Except.ok content =>
    if pyStrip content = "" then
      (Except.error (HTTPError.mk 400 "The uploaded file is empty or unreadable."), db)
    else
      let chunks := splitText content
      match chunks.mapM embed with
      | Except.error e =>
        (Except.error (HTTPError.mk 500 ("Failed to process document: " ++ e)), db)
      | Except.ok embeddings =>
        (Except.ok (UploadResponse.mk "success" filename chunks.length),
         { db with
            chunks := db.chunks ++
              (List.zip chunks embeddings).enum.map
                (fun p => DocumentChunk.mk (db.nextChunkId + p.1) filename p.2.1 p.2.2),
            nextChunkId := db.nextChunkId + chunks.length })

/-- GET /chat/history (main.py lines 184-191): role and content of the
conversation rows in ascending created_at order. -/
def get_chat_history (db : DB) (cid : String) : List (String × String) :=
  (conversationHistory db cid).map (fun m => (m.role, m.content))

/-- The WHERE role = user filter of main.py line 212. -/
def isUserTurn (t : ChatHistory) : Bool :=
  t.role == "user"

/-- The user rows of one conversation, the group that main.py lines 207-214
aggregates over. -/
def userTurns (db : DB) (cid : String) : List ChatHistory :=
  db.history.filter (fun t => isUserTurn t && t.conversation_id == cid)

/-- Distinct keys in first-appearance order: the GROUP BY key extraction. -/
def dedupKeys (seen : List String) : List String → List String
  | [] => []
  | x :: xs => if seen.contains x then dedupKeys seen xs else x :: dedupKeys (x :: seen) xs

/-- SQL MIN over the content column of a group: the codepoint-smallest
string, empty for an empty group. -/
def minContent (ts : List ChatHistory) : String :=
  match ts with
  | [] => ""
  | t :: rest => rest.foldl (fun acc u => if strLtB u.content acc then u.content else acc) t.content

/-- SQL MIN over the created_at column of a group, zero for an empty group. -/
def minCreatedAt (ts : List ChatHistory) : Nat :=
  match ts with
  | [] => 0
  | t :: rest => rest.foldl (fun acc u => min acc u.created_at) t.created_at

/-- SQL MAX over the created_at column of a group, zero for an empty group. -/
def maxCreatedAt (ts : List ChatHistory) : Nat :=
  ts.foldl (fun acc t => max acc t.created_at) 0

/-- One aggregated row of the GROUP BY query of main.py lines 207-217. -/
structure ConvRow where
  conversation_id : String
  first_message : String
  min_created : Nat
  max_created : Nat
deriving DecidableEq

/-- One element of the GET /conversations response (main.py lines 219-226). -/
structure ConversationSummary where
  id : String
  title : String
  created_at : Nat
deriving DecidableEq

/-- The title truncation of main.py line 222: first 50 characters plus an
ellipsis when the first message is longer than 50 characters. -/
def truncateTitle (s : String) : String :=
  if pyLen s > 50 then pyTake s 50 ++ "..." else s

/-- The aggregated rows of the GROUP BY query: for every conversation_id
carrying at least one user row, MIN(content), MIN(created_at) and the
MAX(created_at) sort key, all over the user rows of that conversation. -/
def conversationRows (db : DB) : List ConvRow :=
  (dedupKeys [] ((db.history.filter isUserTurn).map (fun t => t.conversation_id))).map
    (fun cid => ConvRow.mk cid (minContent (userTurns db cid))
      (minCreatedAt (userTurns db cid)) (maxCreatedAt (userTurns db cid)))

/-- GET /conversations (main.py lines 204-226): the aggregated rows ordered
by MAX(created_at) descending, rendered as id, truncated title and the
minimum timestamp. -/
def list_conversations (db : DB) : List ConversationSummary :=
  (List.insertionSort (fun a b => b.max_created ≤ a.max_created)
    (conversationRows db)).map
    (fun r => ConversationSummary.mk r.conversation_id (truncateTitle r.first_message)
      r.min_created)

/-- Modelled from the spec: the temporally-first user message of a
conversation, the user turn with minimum created_at timestamp (section 4.4
of the spec); the code under src/ aggregates MIN over content instead. -/
def specFirstUserMessage (db : DB) (cid : String) : Option String :=
  match List.insertionSort (fun a b => a.created_at ≤ b.created_at) (userTurns db cid) with
  | [] => none
  | t :: _ => some t.content

/-- Modelled from the spec: the most recent activity timestamp of a
conversation, the maximum created_at over all its turns of either role
(section 4.4 of the spec); the code under src/ maximises over user turns
only. -/
def mostRecentActivity (db : DB) (cid : String) : Nat :=
  maxCreatedAt (db.history.filter (fun t => t.conversation_id == cid))

/-- A generation oracle that answers with a flat rendering of the whole
model input, making the exact contents handed to the generation call
observable in the response. -/
def encodeContents (cs : List GContent) : String :=
  String.intercalate "\x1e" (cs.map (fun c => c.role ++ ":" ++ c.text))

/-- A generation oracle that answers with the text of the final turn of the
model input. -/
def lastContentText (cs : List GContent) : Except String String :=
  Except.ok ((cs.map (fun c => c.text)).getLastD "")

/-! Fixtures: concrete stores, requests and oracles used by witnesses and
counterexamples. -/

/-- An empty store. -/
def db0 : DB := DB.mk [] [] 1 1

/-- A store holding one chunk. -/
def db1 : DB := DB.mk [DocumentChunk.mk 1 "f.txt" "alpha" [1, 2]] [] 2 1

/-- An embedding oracle that always succeeds. -/
def embedOk : String → Except String (List Int) := fun _ => Except.ok [0, 0]

/-- An embedding oracle that always fails. -/
def embedFail : String → Except String (List Int) := fun _ => Except.error "boom"

/-- A generation oracle that always answers the same text. -/
def genOk : List GContent → Except String String := fun _ => Except.ok "ans"

/-- A chat request whose client-supplied conversation id carries surrounding
whitespace. -/
def req1 : ChatRequest := ChatRequest.mk "what" (some " abc ")

/-- A chat request with no client-supplied conversation id. -/
def reqNone : ChatRequest := ChatRequest.mk "what" none

/-! Helper lemmas describing the branch structure of chat. -/

/-- Every run of chat either leaves the store untouched or returns a success
response: the store is only replaced on the one branch that commits. -/
lemma chat_result_cases (embed : String → Except String (List Int))
    (generate : List GContent → Except String String)
    (freshId : String) (now : Nat) (req : ChatRequest) (db : DB) :
    (chat embed generate freshId now req db).2 = db ∨
    ∃ resp, (chat embed generate freshId now req db).1 = Except.ok resp := by
  by_cases h0 : db.chunks.length = 0
  · simp [chat, h0]
  · rcases hemb : embed req.query with e | qe
    · simp [chat, h0, hemb]
    · rcases hgen : generate (buildContents
        (conversationHistory db (resolvedConversationId req.conversation_id freshId))
        (assembleContext (nearest db.chunks qe TOP_K_CHUNKS)) req.query) with e2 | rt
      · simp [chat, h0, hemb, hgen]
      · right
        exact ⟨ChatResponse.mk rt (resolvedConversationId req.conversation_id freshId),
          by simp [chat, h0, hemb, hgen]⟩

/-- A successful run of chat pins down every component: the embedding and
generation calls succeeded, the response carries the generated text and the
resolved conversation id, and the committed store is the input store with
exactly the two new turns appended. -/
lemma chat_ok_shape (embed : String → Except String (List Int))
    (generate : List GContent → Except String String)
    (freshId : String) (now : Nat) (req : ChatRequest) (db : DB) (resp : ChatResponse)
    (h : (chat embed generate freshId now req db).1 = Except.ok resp) :
    ∃ qe rt, embed req.query = Except.ok qe ∧
      generate (buildContents
        (conversationHistory db (resolvedConversationId req.conversation_id freshId))
        (assembleContext (nearest db.chunks qe TOP_K_CHUNKS)) req.query) = Except.ok rt ∧
      resp = ChatResponse.mk rt (resolvedConversationId req.conversation_id freshId) ∧
      (chat embed generate freshId now req db).2 =
        { db with
            history := db.history ++
              [ChatHistory.mk db.nextId (resolvedConversationId req.conversation_id freshId)
                "user" req.query now,
               ChatHistory.mk (db.nextId + 1)
                (resolvedConversationId req.conversation_id freshId) "model" rt now],
            nextId := db.nextId + 2 } ∧
      db.chunks.length ≠ 0 := by
  by_cases h0 : db.chunks.length = 0
  · simp [chat, h0] at h
  · rcases hemb : embed req.query with e | qe
    · simp [chat, h0, hemb] at h
    · rcases hgen : generate (buildContents
        (conversationHistory db (resolvedConversationId req.conversation_id freshId))
        (assembleContext (nearest db.chunks qe TOP_K_CHUNKS)) req.query) with e2 | rt
      · simp [chat, h0, hemb, hgen] at h
      · refine ⟨qe, rt, rfl, hgen, ?_, ?_, h0⟩
        · simp [chat, h0, hemb, hgen] at h
          exact h.symm
        · simp [chat, h0, hemb, hgen]

/-- C6: a chat request against an empty Vector Store fails with the 400
no-documents error and commits nothing, whatever the embedding and
generation oracles would do: the result does not depend on them, so neither
call is made. -/
theorem chat_empty_store_rejected (embed : String → Except String (List Int))
    (generate : List GContent → Except String String)
    (freshId : String) (now : Nat) (req : ChatRequest) (db : DB)
    (h : db.chunks = []) :
    chat embed generate freshId now req db =
      (Except.error (HTTPError.mk 400 "No documents found. Please upload a document first."),
       db) := by
  simp [chat, h]

/-- Witness for C6 at the concrete empty store. -/
theorem chat_empty_store_rejected_witness :
    chat embedOk genOk "fresh" 10 reqNone db0 =
      (Except.error (HTTPError.mk 400 "No documents found. Please upload a document first."),
       db0) :=
  chat_empty_store_rejected embedOk genOk "fresh" 10 reqNone db0 rfl

/-- C2: a chat request that fails in any step after the precondition, the
embedding call, the retrieval or the generation call included, commits no
conversation turns: whenever the result is an error, the store after the
request equals the store before it. -/
theorem chat_failure_persists_nothing (embed : String → Except String (List Int))
    (generate : List GContent → Except String String)
    (freshId : String) (now : Nat) (req : ChatRequest) (db : DB) (e : HTTPError)
    (h : (chat embed generate freshId now req db).1 = Except.error e) :
    (chat embed generate freshId now req db).2 = db := by
  rcases chat_result_cases embed generate freshId now req db with h2 | ⟨resp, hok⟩
  · exact h2
  · rw [h] at hok
    exact absurd hok (by simp)

/-- Witness for C2: a failing embedding call on a store with one chunk
leaves the store unchanged. -/
theorem chat_failure_persists_nothing_witness :
    (chat embedFail genOk "fresh" 10 reqNone db1).2 = db1 :=
  chat_failure_persists_nothing embedFail genOk "fresh" 10 reqNone db1
    (HTTPError.mk 500 "boom") rfl

/-- C4: a successful chat request appends exactly two turns to the store
under the resolved conversation id, first a user turn holding the original
query text and then a model turn holding the returned answer. -/
theorem chat_ok_appends_two_turns (embed : String → Except String (List Int))
    (generate : List GContent → Except String String)
    (freshId : String) (now : Nat) (req : ChatRequest) (db : DB) (resp : ChatResponse)
    (h : (chat embed generate freshId now req db).1 = Except.ok resp) :
    (chat embed generate freshId now req db).2.history = db.history ++
      [ChatHistory.mk db.nextId resp.conversation_id "user" req.query now,
       ChatHistory.mk (db.nextId + 1) resp.conversation_id "model" resp.answer now] := by
  rcases chat_ok_shape embed generate freshId now req db resp h with
    ⟨qe, rt, hemb, hgen, hresp, hdb, h0⟩
  rw [hdb, hresp]

/-- Witness for C4 at a concrete successful run. -/
theorem chat_ok_appends_two_turns_witness :
    (chat embedOk genOk "fresh" 10 req1 db1).2.history = db1.history ++
      [ChatHistory.mk db1.nextId "abc" "user" "what" 10,
       ChatHistory.mk (db1.nextId + 1) "abc" "model" "ans" 10] :=
  chat_ok_appends_two_turns embedOk genOk "fresh" 10 req1 db1
    (ChatResponse.mk "ans" "abc") rfl


/-- Counterexample for C8: a client-supplied conversation id that is
non-blank but carries surrounding whitespace is not used unchanged; the
response resolves it to the stripped value. -/
theorem conversation_id_not_unchanged_counterexample :
    (chat embedOk genOk "fresh" 10 req1 db1).1 =
      Except.ok (ChatResponse.mk "ans" "abc") ∧
    req1.conversation_id = some " abc " ∧ ("abc" : String) ≠ " abc " :=
  ⟨rfl, rfl, by decide⟩

/-- C8 as amended: the response carries the answer together with the
resolved conversation id, where resolution strips a non-blank client value
(so a value with no surrounding whitespace is used unchanged) and falls back
to the fresh identifier when the client value is absent, empty or blank. -/
theorem chat_conversation_id_resolution (embed : String → Except String (List Int))
    (generate : List GContent → Except String String)
    (freshId : String) (now : Nat) (req : ChatRequest) (db : DB) (resp : ChatResponse)
    (h : (chat embed generate freshId now req db).1 = Except.ok resp) :
    resp.conversation_id = resolvedConversationId req.conversation_id freshId ∧
    (∀ s f2, s ≠ "" → pyStrip s ≠ "" →
      resolvedConversationId (some s) f2 = pyStrip s) ∧
    (∀ f2, resolvedConversationId none f2 = f2) ∧
    (∀ s f2, pyStrip s = "" → resolvedConversationId (some s) f2 = f2) := by
  refine ⟨?_, ?_, ?_, ?_⟩
  · rcases chat_ok_shape embed generate freshId now req db resp h with
      ⟨qe, rt, hemb, hgen, hresp, hdb, h0⟩
    rw [hresp]
  · intro s f2 hs hstrip
    simp [resolvedConversationId, hs, hstrip]
  · intro f2
    simp [resolvedConversationId]
  · intro s f2 hstrip
    by_cases hs : s = ""
    · simp [resolvedConversationId, hs]
    · simp [resolvedConversationId, hs, hstrip]

/-- Witness for C8 at a concrete successful run. -/
theorem chat_conversation_id_resolution_witness :
    (ChatResponse.mk "ans" "abc").conversation_id =
      resolvedConversationId req1.conversation_id "fresh" ∧
    (∀ s f2, s ≠ "" → pyStrip s ≠ "" →
      resolvedConversationId (some s) f2 = pyStrip s) ∧
    (∀ f2, resolvedConversationId none f2 = f2) ∧
    (∀ s f2, pyStrip s = "" → resolvedConversationId (some s) f2 = f2) :=
  chat_conversation_id_resolution embedOk genOk "fresh" 10 req1 db1
    (ChatResponse.mk "ans" "abc") rfl

/-- Counterexample for C5: the new turn handed to the model at a concrete
input has the question on the same line as the Question label, separated by
a space, not by the newline the claim states. -/
theorem chat_prompt_question_newline_counterexample :
    (chat (fun _ => Except.ok [5, 5]) lastContentText "fresh" 10 reqNone db1).1 =
      Except.ok (ChatResponse.mk "Context:\nalpha\n\nQuestion: what" "fresh") ∧
    ("Context:\nalpha\n\nQuestion: what" : String) ≠ "Context:\nalpha\n\nQuestion:\nwhat" :=
  ⟨rfl, by decide⟩

/-- C5 as amended: the model input is the replayed history followed by one
new user turn whose text is the Context label, a newline, the assembled
context, a blank line, then the Question label followed by a single space
and the query text. Observed through a generation oracle that echoes a flat
rendering of its whole input. -/
theorem chat_model_input_format (qe : List Int) (freshId : String) (now : Nat)
    (req : ChatRequest) (db : DB) (h : db.chunks.length ≠ 0) :
    (chat (fun _ => Except.ok qe) (fun cs => Except.ok (encodeContents cs))
        freshId now req db).1 =
      Except.ok (ChatResponse.mk
        (encodeContents
          ((conversationHistory db (resolvedConversationId req.conversation_id freshId)).map
            (fun m => GContent.mk m.role m.content) ++
            [GContent.mk "user"
              ("Context:\n" ++ assembleContext (nearest db.chunks qe TOP_K_CHUNKS) ++
               "\n\nQuestion: " ++ req.query)]))
        (resolvedConversationId req.conversation_id freshId)) := by
  simp [chat, h, buildContents, buildPrompt]

/-- Witness for C5 at the concrete one-chunk store. -/
theorem chat_model_input_format_witness :
    (chat (fun _ => Except.ok [5, 5]) (fun cs => Except.ok (encodeContents cs))
        "fresh" 10 reqNone db1).1 =
      Except.ok (ChatResponse.mk
        (encodeContents
          ((conversationHistory db1 (resolvedConversationId reqNone.conversation_id "fresh")).map
            (fun m => GContent.mk m.role m.content) ++
            [GContent.mk "user"
              ("Context:\n" ++ assembleContext (nearest db1.chunks [5, 5] TOP_K_CHUNKS) ++
               "\n\nQuestion: " ++ reqNone.query)]))
        (resolvedConversationId reqNone.conversation_id "fresh")) :=
  chat_model_input_format [5, 5] "fresh" 10 reqNone db1 (by decide)

/-- C7: an upload whose filename has an extension outside the supported set
fails with 422 and persists nothing, and an upload whose extracted text is
empty or whitespace-only fails with 400 and persists nothing. -/
theorem upload_validation_rejections (extractor : String → String → String)
    (embed : String → Except String (List Int)) (splitText : String → List String)
    (filename file_bytes : String) (db : DB) :
    (pyLower (splitextExt filename) ∉ SUPPORTED_EXTENSIONS →
      upload_document extractor embed splitText filename file_bytes db =
        (Except.error (HTTPError.mk 422 "Unsupported file type. Supported: .pdf, .txt, .md"),
         db)) ∧
    (pyLower (splitextExt filename) ∈ SUPPORTED_EXTENSIONS →
      pyStrip (extractor (pyLower (splitextExt filename)) file_bytes) = "" →
      upload_document extractor embed splitText filename file_bytes db =
        (Except.error (HTTPError.mk 400 "The uploaded file is empty or unreadable."), db)) := by
  constructor
  · intro hext
    simp [upload_document, extract_text_from_file, hext]
  · intro hext hempty
    simp [upload_document, extract_text_from_file, hext, hempty]

/-- Witness for C7: a docx upload is rejected with 422 and a whitespace-only
txt upload is rejected with 400, both leaving the store as it was. -/
theorem upload_validation_rejections_witness :
    upload_document (fun _ _ => " ") embedOk (fun c => [c]) "a.docx" "zz" db0 =
      (Except.error (HTTPError.mk 422 "Unsupported file type. Supported: .pdf, .txt, .md"),
       db0) ∧
    upload_document (fun _ _ => " ") embedOk (fun c => [c]) "a.txt" "zz" db0 =
      (Except.error (HTTPError.mk 400 "The uploaded file is empty or unreadable."), db0) :=
  ⟨(upload_validation_rejections (fun _ _ => " ") embedOk (fun c => [c]) "a.docx" "zz" db0).1
      (by decide),
   (upload_validation_rejections (fun _ _ => " ") embedOk (fun c => [c]) "a.txt" "zz" db0).2
      (by decide) (by decide)⟩

/-- C10: the upload extension gate lowercases the extension before testing
membership in the supported set, so the 422 rejection happens exactly when
the lowercased extension is unsupported, and uppercase or mixed-case
variants of supported extensions are accepted and routed to the handler of
their lowercase form. -/
theorem extension_check_case_insensitive (extractor : String → String → String)
    (filename file_bytes : String) :
    ((∃ e, extract_text_from_file extractor filename file_bytes = Except.error e ∧
        e.status = 422) ↔
      pyLower (splitextExt filename) ∉ SUPPORTED_EXTENSIONS) ∧
    extract_text_from_file extractor "report.TXT" file_bytes =
      Except.ok (extractor ".txt" file_bytes) ∧
    extract_text_from_file extractor "notes.Pdf" file_bytes =
      Except.ok (extractor ".pdf" file_bytes) ∧
    extract_text_from_file extractor "readme.MD" file_bytes =
      Except.ok (extractor ".md" file_bytes) := by
  refine ⟨?_, rfl, rfl, rfl⟩
  by_cases hext : pyLower (splitextExt filename) ∈ SUPPORTED_EXTENSIONS
  · simp [extract_text_from_file, hext]
  · simp [extract_text_from_file, hext]

/-- A store whose single conversation has two user turns: the temporally
first message is banana question, while the lexicographically smallest
content is apple question. -/
def db3 : DB := DB.mk []
  [ChatHistory.mk 1 "c1" "user" "banana question" 1,
   ChatHistory.mk 2 "c1" "model" "reply one" 2,
   ChatHistory.mk 3 "c1" "user" "apple question" 3,
   ChatHistory.mk 4 "c1" "model" "reply two" 4] 1 5

/-- C3: the conversation listing aggregates MIN over the content column, so
at this store it reports the lexicographically smallest user message as the
title source, not the temporally first user message that both the spec and
the docstring of list_conversations describe; the earliest timestamp is
still reported correctly. -/
theorem list_conversations_min_content_divergence :
    list_conversations db3 = [ConversationSummary.mk "c1" "apple question" 1] ∧
    specFirstUserMessage db3 "c1" = some "banana question" ∧
    ("apple question" : String) ≠ "banana question" := by
  refine ⟨by decide, by decide, by decide⟩

/-- A store with two conversations whose order under max user-turn timestamp
differs from their order under most recent activity: conversation A has the
older user turn but the newest model turn. -/
def db9 : DB := DB.mk []
  [ChatHistory.mk 1 "A" "user" "hi" 1,
   ChatHistory.mk 2 "B" "user" "yo" 2,
   ChatHistory.mk 3 "B" "model" "s" 3,
   ChatHistory.mk 4 "A" "model" "r" 100] 1 5

/-- Counterexample for C9: the listing at this store is not ordered by each
conversation's most recent activity timestamp descending; conversation A has
the most recent activity (timestamp 100) yet is listed after B, because the
sort key is the maximum over user turns only. -/
theorem list_conversations_activity_order_counterexample :
    (list_conversations db9).map (fun e => e.id) = ["B", "A"] ∧
    mostRecentActivity db9 "A" = 100 ∧
    mostRecentActivity db9 "B" = 3 ∧
    ¬ (list_conversations db9).Pairwise
        (fun a b => mostRecentActivity db9 b.id ≤ mostRecentActivity db9 a.id) := by
  refine ⟨by decide, by decide, by decide, by decide⟩

/-- C1: the retrieval step returns TOP_K_CHUNKS stored chunks of smallest
Euclidean distance to the query embedding in ascending-distance order, all
chunks when fewer are stored, and the context handed to the model is their
content joined with the visible separator in nearest-first order (final
conjunct, observed through a generation oracle echoing the final turn). -/
theorem nearest_retrieval_top_k (q : List Int) (db : DB) :
    (nearest db.chunks q TOP_K_CHUNKS).length = min TOP_K_CHUNKS db.chunks.length ∧
    (nearest db.chunks q TOP_K_CHUNKS).Pairwise
      (fun a b => Real.sqrt ((l2DistSq a.embedding q : ℝ)) ≤
        Real.sqrt ((l2DistSq b.embedding q : ℝ))) ∧
    (∃ rest, (nearest db.chunks q TOP_K_CHUNKS ++ rest).Perm db.chunks ∧
      ∀ a ∈ nearest db.chunks q TOP_K_CHUNKS, ∀ b ∈ rest,
        Real.sqrt ((l2DistSq a.embedding q : ℝ)) ≤
          Real.sqrt ((l2DistSq b.embedding q : ℝ))) ∧
    (db.chunks.length ≤ TOP_K_CHUNKS → (nearest db.chunks q TOP_K_CHUNKS).Perm db.chunks) ∧
    (∀ (freshId : String) (now : Nat) (req : ChatRequest), db.chunks.length ≠ 0 →
      (chat (fun _ => Except.ok q) lastContentText freshId now req db).1 =
        Except.ok (ChatResponse.mk
          ("Context:\n" ++
            String.intercalate "\n---\n"
              ((nearest db.chunks q TOP_K_CHUNKS).map (fun c => c.content)) ++
            "\n\nQuestion: " ++ req.query)
          (resolvedConversationId req.conversation_id freshId))) := by
  haveI : IsTotal DocumentChunk
      (fun a b => l2DistSq a.embedding q ≤ l2DistSq b.embedding q) :=
    ⟨fun a b => le_total _ _⟩
  haveI : IsTrans DocumentChunk
      (fun a b => l2DistSq a.embedding q ≤ l2DistSq b.embedding q) :=
    ⟨fun a b c h1 h2 => le_trans h1 h2⟩
  have hsorted := List.sorted_insertionSort
    (fun a b => l2DistSq a.embedding q ≤ l2DistSq b.embedding q) db.chunks
  have hperm := List.perm_insertionSort
    (fun a b => l2DistSq a.embedding q ≤ l2DistSq b.embedding q) db.chunks
  have hsqrt : ∀ {a b : DocumentChunk},
      l2DistSq a.embedding q ≤ l2DistSq b.embedding q →
      Real.sqrt ((l2DistSq a.embedding q : ℝ)) ≤
        Real.sqrt ((l2DistSq b.embedding q : ℝ)) := by
    intro a b hab
    exact Real.sqrt_le_sqrt (by exact_mod_cast hab)
  refine ⟨?_, ?_, ?_, ?_, ?_⟩
  · show ((List.insertionSort _ db.chunks).take TOP_K_CHUNKS).length = _
    rw [List.length_take, hperm.length_eq]
  · exact (List.Pairwise.sublist (List.take_sublist _ _) hsorted).imp hsqrt
  · refine ⟨(List.insertionSort
      (fun a b => l2DistSq a.embedding q ≤ l2DistSq b.embedding q) db.chunks).drop
        TOP_K_CHUNKS, ?_, ?_⟩
    · show ((List.insertionSort _ db.chunks).take TOP_K_CHUNKS ++
        (List.insertionSort _ db.chunks).drop TOP_K_CHUNKS).Perm db.chunks
      rw [List.take_append_drop]
      exact hperm
    · have hcross := (List.pairwise_append.mp
        (by rw [List.take_append_drop]; exact hsorted :
          List.Pairwise (fun a b => l2DistSq a.embedding q ≤ l2DistSq b.embedding q)
            ((List.insertionSort _ db.chunks).take TOP_K_CHUNKS ++
             (List.insertionSort _ db.chunks).drop TOP_K_CHUNKS))).2.2
      intro a ha b hb
      exact hsqrt (hcross a ha b hb)
  · intro hlen
    show ((List.insertionSort _ db.chunks).take TOP_K_CHUNKS).Perm db.chunks
    rw [List.take_of_length_le (by rw [hperm.length_eq]; exact hlen)]
    exact hperm
  · intro freshId now req h0
    simp [chat, h0, lastContentText, buildContents, buildPrompt, assembleContext]

/-- Every aggregated row of the conversation listing carries the MIN content,
MIN timestamp and MAX timestamp of the user turns of its conversation. -/
lemma conversationRows_fields (db : DB) (r : ConvRow) (hr : r ∈ conversationRows db) :
    r.first_message = minContent (userTurns db r.conversation_id) ∧
    r.min_created = minCreatedAt (userTurns db r.conversation_id) ∧
    r.max_created = maxCreatedAt (userTurns db r.conversation_id) := by
  rcases List.mem_map.mp hr with ⟨cid, hcid, hfr⟩
  subst hfr
  exact ⟨rfl, rfl, rfl⟩

/-- C9 as amended: the conversation listing is ordered by each conversation's
most recent user-turn timestamp descending (not by most recent activity over
both roles), every entry renders the truncation of the aggregated first
message of its conversation together with the earliest user-turn timestamp,
and the truncation keeps a message of at most 50 characters unmodified while
a longer one is cut to its first 50 characters with an ellipsis appended. -/
theorem list_conversations_order_and_truncation (db : DB) :
    (list_conversations db).Pairwise
      (fun a b => maxCreatedAt (userTurns db b.id) ≤ maxCreatedAt (userTurns db a.id)) ∧
    (∀ e ∈ list_conversations db,
      e.title = truncateTitle (minContent (userTurns db e.id)) ∧
      e.created_at = minCreatedAt (userTurns db e.id)) ∧
    (∀ s, pyLen s ≤ 50 → truncateTitle s = s) ∧
    (∀ s, 50 < pyLen s → truncateTitle s = pyTake s 50 ++ "...") := by
  haveI : IsTotal ConvRow (fun a b => b.max_created ≤ a.max_created) :=
    ⟨fun a b => le_total _ _⟩
  haveI : IsTrans ConvRow (fun a b => b.max_created ≤ a.max_created) :=
    ⟨fun a b c h1 h2 => le_trans h2 h1⟩
  have hsorted := List.sorted_insertionSort
    (fun a b : ConvRow => b.max_created ≤ a.max_created) (conversationRows db)
  have hmem : ∀ r ∈ List.insertionSort
      (fun a b : ConvRow => b.max_created ≤ a.max_created) (conversationRows db),
      r ∈ conversationRows db :=
    fun r hr => (List.perm_insertionSort _ _).mem_iff.mp hr
  refine ⟨?_, ?_, ?_, ?_⟩
  · unfold list_conversations
    rw [List.pairwise_map]
    refine List.Pairwise.imp_of_mem ?_ hsorted
    intro a b ha hb hab
    show maxCreatedAt (userTurns db b.conversation_id) ≤
      maxCreatedAt (userTurns db a.conversation_id)
    rw [← (conversationRows_fields db a (hmem a ha)).2.2,
        ← (conversationRows_fields db b (hmem b hb)).2.2]
    exact hab
  · intro e he
    unfold list_conversations at he
    rcases List.mem_map.mp he with ⟨r, hr, hre⟩
    rcases conversationRows_fields db r (hmem r hr) with ⟨hf, hm, _⟩
    subst hre
    exact ⟨by rw [← hf], by rw [← hm]⟩
  · intro s hs
    have hn : ¬ (pyLen s > 50) := by omega
    simp [truncateTitle, hn]
  · intro s hs
    simp [truncateTitle, hs]
